import Mathlib

/-!
Verification of the glin-docs repository: a shallow embedding of its two
configuration modules (`docusaurus.config.ts`, `sidebars.ts`) and of the
structural metadata of its markdown content files (front matter, fenced
code blocks, internal link targets), together with theorems settling the
content-integrity and configuration claims about the repository.
-/

namespace GlinDocs

/-! ## Sidebar tree (`sidebars.ts`) -/

/-- An entry of a sidebar in `sidebars.ts`: either an explicit doc entry
(`{type: 'doc', id, label}`) or a category (`{type: 'category', label, items}`)
whose items are doc-id shorthand strings. -/
inductive SidebarEntry where
  | doc (id : String) (label : String)
  | category (label : String) (items : List String)
deriving DecidableEq, Repr

/-- The `sdkSidebar` value of `sidebars.ts` (lines 4-72). -/
def sdkSidebar : List SidebarEntry :=
  [ .doc "sdk/intro" "Overview",
    .category "Getting Started"
      [ "sdk/getting-started/overview",
        "sdk/getting-started/installation",
        "sdk/getting-started/quickstart" ],
    .category "Core Concepts"
      [ "sdk/core-concepts/architecture",
        "sdk/core-concepts/authentication",
        "sdk/core-concepts/accounts",
        "sdk/core-concepts/transactions",
        "sdk/core-concepts/events" ],
    .category "Contract Interaction"
      [ "sdk/contracts/deploying",
        "sdk/contracts/calling-methods",
        "sdk/contracts/querying-state",
        "sdk/contracts/metadata" ],
    .category "TypeScript SDK"
      [ "sdk/typescript/setup",
        "sdk/typescript/browser-extensions",
        "sdk/typescript/react-integration",
        "sdk/typescript/api-reference",
        "sdk/typescript/examples" ],
    .category "Rust SDK"
      [ "sdk/rust/setup",
        "sdk/rust/cli-tools",
        "sdk/rust/async-patterns",
        "sdk/rust/api-reference",
        "sdk/rust/examples" ],
    .category "Examples"
      [ "sdk/examples/sign-in-with-glin",
        "sdk/examples/deploy-contract",
        "sdk/examples/build-indexer",
        "sdk/examples/create-cli-tool" ] ]

/-- The `blockchainSidebar` value of `sidebars.ts` (lines 74-107). -/
def blockchainSidebar : List SidebarEntry :=
  [ .doc "blockchain/intro" "Overview",
    .category "Running a Node"
      [ "blockchain/node/installation",
        "blockchain/node/configuration",
        "blockchain/node/development" ],
    .category "Validators"
      [ "blockchain/validators/setup",
        "blockchain/validators/keys",
        "blockchain/validators/staking" ],
    .category "Architecture"
      [ "blockchain/architecture/overview",
        "blockchain/architecture/pallets",
        "blockchain/architecture/runtime" ] ]

/-- The `sidebars` object exported by `sidebars.ts`: a key-value map from
sidebar name to sidebar entry list. -/
def sidebars : List (String × List SidebarEntry) :=
  [ ("sdkSidebar", sdkSidebar),
    ("blockchainSidebar", blockchainSidebar) ]

/-- The keys of the exported `sidebars` object. -/
def sidebarKeys : List String := sidebars.map Prod.fst

/-- The doc ids referenced by a single sidebar entry: the `id` of a doc
entry, or all shorthand doc-id strings of a category's `items` list. -/
def entryDocIds : SidebarEntry → List String
  | .doc id _ => [id]
  | .category _ items => items

/-- All doc ids referenced by the `sdkSidebar`. -/
def sdkSidebarDocIds : List String := (sdkSidebar.map entryDocIds).flatten

/-- All doc ids referenced by the `blockchainSidebar`. -/
def blockchainSidebarDocIds : List String :=
  (blockchainSidebar.map entryDocIds).flatten

/-- All doc ids referenced anywhere in the `sidebars` object. -/
def sidebarDocIds : List String := sdkSidebarDocIds ++ blockchainSidebarDocIds

/-! ## Site configuration (`docusaurus.config.ts`) -/

/-- The `docs` options of the classic preset (config lines 32-38). -/
structure DocsOptions where
  routeBasePath : String
  sidebarPath : String
  editUrl : String
  showLastUpdateTime : Bool
  showLastUpdateAuthor : Bool
deriving DecidableEq, Repr

/-- The classic preset options (config lines 29-44): the docs options and
the blog option, whose source literal is `blog: false`. -/
structure PresetOptions where
  docs : DocsOptions
  blog : Bool
deriving DecidableEq, Repr

/-- A navbar item (config lines 60-99): either a `docSidebar` item with its
`sidebarId`, `position` and `label`, or an external `href` item. -/
inductive NavbarItem where
  | docSidebar (sidebarId : String) (position : String) (label : String)
  | external (href : String) (label : String) (position : String)
deriving DecidableEq, Repr

/-- A footer link (config lines 104-172): an internal `to:` link or an
external `href:` link. -/
inductive FooterItem where
  | internal (label : String) (toRoute : String)
  | external (label : String) (href : String)
deriving DecidableEq, Repr

/-- A titled group of footer links. -/
structure FooterGroup where
  title : String
  items : List FooterItem
deriving DecidableEq, Repr

/-- The whole site configuration object, with the fields the claims are
about. -/
structure SiteConfig where
  title : String
  tagline : String
  favicon : String
  url : String
  baseUrl : String
  organizationName : String
  projectName : String
  onBrokenLinks : String
  onBrokenMarkdownLinks : String
  defaultLocale : String
  locales : List String
  presets : PresetOptions
  navbarTitle : String
  navbarItems : List NavbarItem
  footerStyle : String
  footerLinks : List FooterGroup
  copyright : String
  prismAdditionalLanguages : List String
  algoliaIndexName : String
deriving DecidableEq, Repr

/-- `baseUrl: '/'` (config line 15). -/
def baseUrl : String := "/"

/-- `routeBasePath: '/'` (config line 33, with the comment that the
`/docs/` prefix is removed since the domain is already docs.glin.ai). -/
def routeBasePath : String := "/"

/-- The docs options literal of the classic preset. -/
def docsOptions : DocsOptions :=
  { routeBasePath := routeBasePath,
    sidebarPath := "./sidebars.ts",
    editUrl := "https://github.com/glin-ai/glin-docs/tree/main/",
    showLastUpdateTime := true,
    showLastUpdateAuthor := true }

/-- The classic preset options literal; `blog := false` is the source
literal `blog: false` (config line 39). -/
def presetOptions : PresetOptions :=
  { docs := docsOptions, blog := false }

/-- `themeConfig.navbar.items` (config lines 60-99). -/
def navbarItems : List NavbarItem :=
  [ .docSidebar "networkSidebar" "left" "Network",
    .docSidebar "sdkSidebar" "left" "SDK",
    .docSidebar "federatedLearningSidebar" "left" "Federated Learning",
    .docSidebar "toolsSidebar" "left" "Tools",
    .docSidebar "blockchainSidebar" "left" "Blockchain",
    .external "https://glin.ai" "Website" "right",
    .external "https://github.com/glin-ai" "GitHub" "right" ]

/-- The `sidebarId` fields of the navbar items of type `docSidebar`. -/
def navbarDocSidebarIds : List String :=
  navbarItems.filterMap fun i =>
    match i with
    | .docSidebar sid _ _ => some sid
    | .external _ _ _ => none

/-- `themeConfig.footer.links` (config lines 104-172). -/
def footerLinks : List FooterGroup :=
  [ { title := "Documentation",
      items :=
        [ .internal "SDK Overview" "/sdk/intro",
          .internal "TypeScript SDK" "/sdk/typescript/setup",
          .internal "Rust SDK" "/sdk/rust/setup" ] },
    { title := "Developers",
      items :=
        [ .external "GitHub" "https://github.com/glin-ai",
          .external "NPM Package" "https://www.npmjs.com/package/@glin-ai/sdk",
          .external "Crates.io" "https://crates.io/crates/glin-client" ] },
    { title := "Community",
      items :=
        [ .external "Discord" "https://discord.gg/glin-ai",
          .external "Twitter" "https://twitter.com/glin_ai",
          .external "Telegram" "https://t.me/glin_ai" ] },
    { title := "More",
      items :=
        [ .external "Website" "https://glin.ai",
          .external "Explorer" "https://explorer.glin.ai",
          .external "Testnet" "https://testnet.glin.ai" ] } ]

/-- The internal (`to:`) targets among the footer links, in order. -/
def footerInternalTargets : List String :=
  ((footerLinks.map FooterGroup.items).flatten).filterMap fun i =>
    match i with
    | .internal _ t => some t
    | .external _ _ => none

/-- `themeConfig.prism.additionalLanguages` (config line 179). -/
def prismAdditionalLanguages : List String :=
  ["rust", "toml", "bash", "json"]

/-- The footer copyright string: the source template literal
`Copyright © ${new Date().getFullYear()} GLIN AI. Built with Docusaurus.`
as a function of the calendar year read from the clock at evaluation
time. -/
def copyrightAt (year : Nat) : String :=
  "Copyright © " ++ toString year ++ " GLIN AI. Built with Docusaurus."

/-- Evaluation of the configuration module `docusaurus.config.ts`.  The
module body is a single object literal; its only non-literal subterm is the
`new Date().getFullYear()` call inside the footer copyright, so evaluation
is modelled as a pure function of the calendar year at evaluation time. -/
def config (year : Nat) : SiteConfig :=
  { title := "GLIN Documentation",
    tagline := "Build on GLIN Network - Decentralized AI Training Platform",
    favicon := "img/glin-coin.svg",
    url := "https://docs.glin.ai",
    baseUrl := baseUrl,
    organizationName := "glin-ai",
    projectName := "glin-docs",
    onBrokenLinks := "throw",
    onBrokenMarkdownLinks := "warn",
    defaultLocale := "en",
    locales := ["en"],
    presets := presetOptions,
    navbarTitle := "GLIN Docs",
    navbarItems := navbarItems,
    footerStyle := "dark",
    footerLinks := footerLinks,
    copyright := copyrightAt year,
    prismAdditionalLanguages := prismAdditionalLanguages,
    algoliaIndexName := "glin" }

/-- The configuration value with the (evaluation-time-dependent) copyright
field blanked out. -/
def configModuloCopyright (c : SiteConfig) : SiteConfig :=
  { c with copyright := "" }

/-! ## Route derivation -/

/-- Collapse runs of consecutive slashes in a character list to a single
slash (the URL normalization the site generator applies when joining URL
segments). -/
def collapseSlashes : List Char → List Char
  | [] => []
  | [c] => [c]
  | a :: b :: rest =>
    if a = '/' ∧ b = '/' then collapseSlashes (b :: rest)
    else a :: collapseSlashes (b :: rest)

/-- The route at which a document with the given id is served: its doc id
joined under the configured `baseUrl` and docs `routeBasePath`, with
duplicate slashes collapsed.  With both set to `"/"` this is `"/" ++ id`. -/
def docRoute (id : String) : String :=
  ⟨collapseSlashes (baseUrl.data ++ routeBasePath.data ++ '/' :: id.data)⟩

/-- Modelled from the spec: build invocation is delegated to the external
classic preset, which derives the site's routes from the docs plugin and
contributes blog routes only when the blog option is enabled; this
repository supplies only the option literal that turns the blog off. -/
def siteRoutes (docIds : List String) (blogRoutes : List String) :
    List String :=
  docIds.map docRoute ++ (if presetOptions.blog then blogRoutes else [])

/-! ## Markdown content files -/

/-- The structural metadata of one markdown/MDX content document of the
repository: its H1 title, its front-matter block (if any) as key/numeral
pairs, the language tags of its fenced code blocks in order (`""` for an
untagged fence), and its internal absolute link targets in order. -/
structure ContentDoc where
  title : String
  frontMatter : Option (List (String × Nat))
  fenceTags : List String
  linkTargets : List String
deriving DecidableEq, Repr

/-- `docs/sdk/intro.md`. -/
def sdkIntroDoc : ContentDoc :=
  { title := "GLIN SDK Overview",
    frontMatter := none,
    fenceTags := [""],
    linkTargets :=
      [ "/sdk/typescript/setup", "/sdk/rust/setup",
        "/sdk/getting-started/installation", "/sdk/getting-started/quickstart",
        "/sdk/examples/sign-in-with-glin", "/sdk/core-concepts/authentication",
        "/sdk/typescript/react-integration", "/sdk/examples/deploy-contract",
        "/sdk/typescript/setup", "/sdk/rust/setup", "/sdk/core-concepts/accounts",
        "/sdk/examples/build-indexer", "/sdk/contracts/deploying",
        "/sdk/rust/setup", "/sdk/rust/async-patterns",
        "/sdk/examples/create-cli-tool" ] }

/-- `docs/sdk/getting-started/overview.md`. -/
def gettingStartedOverviewDoc : ContentDoc :=
  { title := "Getting Started",
    frontMatter := none,
    fenceTags := ["bash", "bash", "typescript", "rust"],
    linkTargets :=
      [ "/sdk/typescript/setup", "/sdk/rust/setup",
        "/sdk/getting-started/installation", "/sdk/getting-started/quickstart",
        "/sdk/core-concepts/architecture" ] }

/-- `docs/sdk/typescript/setup.md`. -/
def typescriptSetupDoc : ContentDoc :=
  { title := "TypeScript SDK Setup",
    frontMatter := none,
    fenceTags :=
      [ "bash", "bash", "typescript", "typescript", "bash", "typescript",
        "bash", "vue", "bash", "typescript", "bash", "json", "typescript",
        "typescript", "typescript", "typescript", "typescript", "bash",
        "typescript", "typescript", "bash", "typescript", "typescript",
        "typescript", "typescript", "json", "bash", "typescript", "bash",
        "bash" ],
    linkTargets :=
      [ "/docs/sdk/typescript/browser-extensions",
        "/docs/sdk/typescript/browser-extensions",
        "/docs/sdk/typescript/react-integration",
        "/docs/sdk/typescript/api-reference",
        "/docs/sdk/typescript/examples", "/docs/sdk/typescript/examples" ] }

/-- `docs/sdk/contracts/calling.md`. -/
def callingDoc : ContentDoc :=
  { title := "Calling Contract Methods",
    frontMatter := none,
    fenceTags :=
      [ "typescript", "rust", "typescript", "rust", "typescript", "rust",
        "typescript", "rust", "typescript", "rust", "typescript", "rust",
        "typescript", "rust", "typescript", "rust", "typescript", "rust",
        "typescript", "typescript", "typescript", "typescript" ],
    linkTargets :=
      [ "/docs/sdk/contracts/querying", "/docs/sdk/contracts/deploying",
        "/docs/sdk/contracts/querying", "/docs/sdk/contracts/events",
        "/docs/sdk/examples/deploy-contract" ] }

/-- `docs/sdk/contracts/deploying.md`. -/
def deployingDoc : ContentDoc :=
  { title := "Deploying Contracts",
    frontMatter := none,
    fenceTags :=
      [ "bash", "typescript", "bash", "rust", "bash", "", "typescript",
        "rust", "typescript", "rust", "typescript", "rust", "typescript",
        "rust", "typescript", "rust", "typescript", "typescript" ],
    linkTargets :=
      [ "/sdk/typescript/setup", "/sdk/rust/setup", "/sdk/contracts/calling",
        "/sdk/contracts/querying", "/sdk/contracts/events" ] }

/-- The Contract Events document (path unknown in this snapshot; retrieved
alongside `docs/sdk/contracts/deploying.md`). -/
def contractEventsDoc : ContentDoc :=
  { title := "Contract Events",
    frontMatter := none,
    fenceTags :=
      [ "rust", "typescript", "rust", "typescript", "rust", "typescript",
        "rust", "typescript", "rust", "typescript", "rust", "typescript",
        "rust", "typescript", "typescript", "typescript" ],
    linkTargets :=
      [ "/sdk/contracts/deploying", "/sdk/contracts/calling",
        "/sdk/examples/build-indexer" ] }

/-- `docs/sdk/examples/deploy-contract.md`. -/
def deployContractExampleDoc : ContentDoc :=
  { title := "Example: Deploy a Smart Contract",
    frontMatter := none,
    fenceTags :=
      [ "bash", "bash", "bash", "rust", "toml", "bash", "", "bash", "bash",
        "typescript", "json", "bash", "rust", "bash", "bash" ],
    linkTargets :=
      [ "/docs/sdk/contracts/calling", "/docs/sdk/contracts/querying",
        "/docs/sdk/contracts/events" ] }

/-- The GLIN Documentation Architecture Plan document (path unknown in this
snapshot). -/
def archPlanDoc : ContentDoc :=
  { title := "GLIN Documentation Architecture Plan",
    frontMatter := none,
    fenceTags :=
      [ "", "", "", "", "", "", "", "", "markdown", "markdown", "markdown",
        "markdown", "markdown", "bash", "yaml", "json", "typescript",
        "typescript", "markdown", "", "bash" ],
    linkTargets :=
      [ "/docs/sdk/core-concepts/architecture", "/docs/federated-learning/intro",
        "/docs/sdk/typescript/setup" ] }

/-- The GLIN Network intro document (path unknown in this snapshot). -/
def networkIntroDoc : ContentDoc :=
  { title := "GLIN Network",
    frontMatter := some [("sidebar_position", 1)],
    fenceTags := [],
    linkTargets :=
      [ "/network/getting-started", "/network/validators", "/network/tokenomics",
        "/sdk/intro", "/federated-learning/intro", "/network/getting-started" ] }

/-- The Rust SDK Setup document (path unknown in this snapshot). -/
def rustSetupDoc : ContentDoc :=
  { title := "Rust SDK Setup",
    frontMatter := none,
    fenceTags :=
      [ "bash", "bash", "bash", "toml", "bash", "toml", "rust", "toml",
        "rust", "toml", "rust", "rust", "rust", "rust", "rust", "bash",
        "toml", "rust", "rust", "rust", "toml", "rust", "rust", "toml",
        "rust", "rust", "rust", "toml", "rust", "rust", "bash", "toml",
        "rust", "bash", "bash", "bash", "rust", "bash", "dockerfile" ],
    linkTargets :=
      [ "/docs/sdk/rust/cli-tools", "/docs/sdk/rust/async-patterns",
        "/docs/sdk/rust/api-reference", "/docs/sdk/rust/examples" ] }

/-- The Build Blockchain Indexer example document (path unknown in this
snapshot). -/
def buildIndexerDoc : ContentDoc :=
  { title := "Example: Build Blockchain Indexer",
    frontMatter := none,
    fenceTags :=
      [ "", "bash", "bash", "prisma", "sql", "typescript", "typescript",
        "typescript", "typescript", "typescript", "rust", "rust", "rust",
        "rust", "rust", "bash", "bash", "bash", "json", "bash", "bash",
        "bash", "json", "typescript", "sql", "typescript", "typescript",
        "typescript", "typescript", "typescript" ],
    linkTargets :=
      [ "/sdk/examples/sign-in-with-glin", "/sdk/examples/deploy-contract",
        "/sdk/core-concepts/transactions" ] }

/-- The Sign in with GLIN example document (path unknown in this
snapshot). -/
def signInDoc : ContentDoc :=
  { title := "Example: Sign in with GLIN",
    frontMatter := none,
    fenceTags :=
      [ "bash", "typescript", "typescript", "typescript", "typescript",
        "typescript", "typescript", "prisma", "typescript", "bash",
        "typescript", "bash" ],
    linkTargets :=
      [ "/docs/sdk/core-concepts/authentication",
        "/docs/sdk/core-concepts/accounts",
        "/docs/sdk/core-concepts/transactions" ] }

/-- The Create CLI Tool example document (path unknown in this
snapshot). -/
def createCliDoc : ContentDoc :=
  { title := "Example: Create CLI Tool",
    frontMatter := none,
    fenceTags :=
      [ "bash", "bash", "typescript", "typescript", "typescript",
        "typescript", "typescript", "typescript", "typescript", "json",
        "rust", "rust", "rust", "rust", "rust", "rust", "rust", "bash",
        "bash", "bash", "bash", "bash", "bash", "typescript", "typescript" ],
    linkTargets :=
      [ "/docs/sdk/examples/sign-in-with-glin",
        "/docs/sdk/examples/deploy-contract",
        "/docs/sdk/examples/build-indexer" ] }

/-- The Querying Contract State document (path unknown in this
snapshot). -/
def queryingDoc : ContentDoc :=
  { title := "Querying Contract State",
    frontMatter := none,
    fenceTags :=
      [ "typescript", "rust", "typescript", "rust", "typescript", "rust",
        "typescript", "rust", "typescript", "rust", "typescript", "rust",
        "typescript", "rust", "typescript", "rust", "typescript", "rust",
        "typescript", "typescript", "typescript", "typescript" ],
    linkTargets :=
      [ "/sdk/contracts/calling", "/sdk/contracts/events",
        "/sdk/examples/deploy-contract" ] }

/-- The Federated Learning intro document (path unknown in this
snapshot). -/
def fedLearningIntroDoc : ContentDoc :=
  { title := "Federated Learning on GLIN",
    frontMatter := some [("sidebar_position", 1)],
    fenceTags := ["", "bash", "typescript"],
    linkTargets :=
      [ "/federated-learning/concepts/tasks",
        "/federated-learning/concepts/gradients",
        "/federated-learning/concepts/aggregation",
        "/federated-learning/concepts/rewards",
        "/federated-learning/getting-started/create-task",
        "/federated-learning/getting-started/train-model",
        "/federated-learning/getting-started/deploy-model",
        "/federated-learning/examples/image-classification",
        "/federated-learning/examples/nlp-training",
        "/federated-learning/examples/federated-analytics",
        "/federated-learning/getting-started/create-task" ] }

/-- The Development Tools document (path unknown in this snapshot). -/
def devToolsDoc : ContentDoc :=
  { title := "Development Tools",
    frontMatter := some [("sidebar_position", 1)],
    fenceTags := ["bash"],
    linkTargets := ["/sdk/typescript/setup", "/sdk/rust/setup"] }

/-- All markdown documents in the repository snapshot. -/
def allDocs : List ContentDoc :=
  [ sdkIntroDoc, gettingStartedOverviewDoc, typescriptSetupDoc, callingDoc,
    deployingDoc, contractEventsDoc, deployContractExampleDoc, archPlanDoc,
    networkIntroDoc, rustSetupDoc, buildIndexerDoc, signInDoc, createCliDoc,
    queryingDoc, fedLearningIntroDoc, devToolsDoc ]

/-- The doc ids of the documents whose file path is part of the snapshot:
the path below `docs/` with the `.md` extension stripped (none of these
files has an `id` or `slug` front-matter override). -/
def knownDocIds : List String :=
  [ "sdk/intro",
    "sdk/getting-started/overview",
    "sdk/typescript/setup",
    "sdk/contracts/calling",
    "sdk/contracts/deploying",
    "sdk/examples/deploy-contract" ]

/-- The sidebar doc ids that match no file path of the snapshot. -/
def missingSidebarDocIds : List String :=
  sidebarDocIds.filter fun id => decide (id ∉ knownDocIds)

/-- The set of language tags actually carried by the tagged fences of the
repository's markdown documents. -/
def usedFenceTags : List String :=
  [ "bash", "dockerfile", "json", "markdown", "prisma", "rust", "sql",
    "toml", "typescript", "vue", "yaml" ]


/-! ## Helper lemmas -/

/-- The doc ids listed in `sidebars.ts` are pairwise distinct. -/
lemma sidebarDocIds_nodup : sidebarDocIds.Nodup := by decide

/-- Thirty-two of the thirty-seven sidebar doc ids match no file path of
the snapshot. -/
lemma missingSidebarDocIds_length : missingSidebarDocIds.length = 32 := by
  decide

lemma missingSidebarDocIds_nodup : missingSidebarDocIds.Nodup :=
  sidebarDocIds_nodup.filter _

/-! ## Theorems for the claims -/

/-- C1: the sidebars object references doc ids that resolve to no markdown
content file of the repository.  The snapshot fixes six content files with
known paths (`knownDocIds`); `u` ranges over the possible doc ids of the at
most ten further markdown documents whose paths the snapshot does not fix.
Whatever those ids are, the id `sdk/contracts/calling-methods` is listed in
the sidebar yet matches no known file (the file that exists is
`docs/sdk/contracts/calling.md`), and by counting, some listed id resolves
to no document at all, so the claim that every sidebar entry resolves to an
existing file fails. -/
theorem sidebar_entry_without_document (u : List String)
    (hu : u.length ≤ 10) :
    ("sdk/contracts/calling-methods" ∈ sidebarDocIds ∧
      "sdk/contracts/calling-methods" ∉ knownDocIds) ∧
    ∃ id, id ∈ sidebarDocIds ∧ id ∉ knownDocIds ∧ id ∉ u := by
  refine ⟨by decide, ?_⟩
  by_contra hno
  push_neg at hno
  have hsub : missingSidebarDocIds ⊆ u := by
    intro x hx
    simp only [missingSidebarDocIds, List.mem_filter] at hx
    exact hno x hx.1 (of_decide_eq_true hx.2)
  have hlen :=
    (List.subperm_of_subset missingSidebarDocIds_nodup hsub).length_le
  rw [missingSidebarDocIds_length] at hlen
  omega

/-- Witness for C1 at the concrete input `u = []`. -/
theorem sidebar_entry_without_document_witness :
    ([] : List String).length ≤ 10 ∧
    ∃ id, id ∈ sidebarDocIds ∧ id ∉ knownDocIds ∧ id ∉ ([] : List String) :=
  ⟨by decide, (sidebar_entry_without_document [] (by decide)).2⟩

/-- C2: three of the five navbar items of type `docSidebar` carry a
`sidebarId` (`networkSidebar`, `federatedLearningSidebar`, `toolsSidebar`)
that is not a key of the sidebars object, whose only keys are `sdkSidebar`
and `blockchainSidebar`; the claim that every such `sidebarId` equals a key
fails. -/
theorem navbar_references_undefined_sidebars :
    "networkSidebar" ∈ navbarDocSidebarIds ∧
    "federatedLearningSidebar" ∈ navbarDocSidebarIds ∧
    "toolsSidebar" ∈ navbarDocSidebarIds ∧
    sidebarKeys = ["sdkSidebar", "blockchainSidebar"] ∧
    "networkSidebar" ∉ sidebarKeys ∧
    "federatedLearningSidebar" ∉ sidebarKeys ∧
    "toolsSidebar" ∉ sidebarKeys := by decide

/-- C3: internal links of the content files do not all resolve to routes of
the generated site.  Under `baseUrl "/"` and `routeBasePath "/"` a document
with id `p` is served at `"/" ++ p`; the link target
`/docs/sdk/contracts/querying` in `docs/sdk/contracts/calling.md` (line 12)
and the target `/docs/sdk/rust/cli-tools` in the Rust SDK Setup document
equal the route of no doc id listed in the sidebars or resolved by a known
file, because every such route lacks the stale `/docs` prefix. -/
theorem internal_links_broken :
    "/docs/sdk/contracts/querying" ∈ callingDoc.linkTargets ∧
    "/docs/sdk/rust/cli-tools" ∈ rustSetupDoc.linkTargets ∧
    docRoute "sdk/contracts/querying" = "/sdk/contracts/querying" ∧
    (∀ id ∈ knownDocIds,
      docRoute id ≠ "/docs/sdk/contracts/querying" ∧
      docRoute id ≠ "/docs/sdk/rust/cli-tools") ∧
    (∀ id ∈ sidebarDocIds,
      docRoute id ≠ "/docs/sdk/contracts/querying" ∧
      docRoute id ≠ "/docs/sdk/rust/cli-tools") := by decide

/-- C4: the configuration makes the external site generator treat the
repository's only error class, authoring mistakes, at build time: broken
links fail the build (`onBrokenLinks: 'throw'`) and broken markdown links
warn (`onBrokenMarkdownLinks: 'warn'`), whatever the evaluation-time
year. -/
theorem broken_link_policy (year : Nat) :
    (config year).onBrokenLinks = "throw" ∧
    (config year).onBrokenMarkdownLinks = "warn" :=
  ⟨rfl, rfl⟩

/-- Witness for C4 at the concrete year 2025. -/
theorem broken_link_policy_witness :
    (config 2025).onBrokenLinks = "throw" ∧
    (config 2025).onBrokenMarkdownLinks = "warn" :=
  broken_link_policy 2025

/-- C5: with `baseUrl "/"` and `routeBasePath "/"` every doc id `p` listed
in the sidebars is served at route `"/" ++ p`, and each of the three
internal footer link targets equals the route of a document listed in the
`sdkSidebar`. -/
theorem footer_links_route_to_sdk_docs :
    baseUrl = "/" ∧ routeBasePath = "/" ∧
    footerInternalTargets =
      ["/sdk/intro", "/sdk/typescript/setup", "/sdk/rust/setup"] ∧
    (∀ id ∈ sidebarDocIds, docRoute id = "/" ++ id) ∧
    (∀ t ∈ footerInternalTargets,
      ∃ id, id ∈ sdkSidebarDocIds ∧ t = docRoute id) := by decide

/-- C6 counterexample: evaluating the configuration module at two times
with different calendar years yields different configuration values,
because the footer copyright embeds `new Date().getFullYear()`; so the
claim that any two evaluations produce equal values fails. -/
theorem config_differs_across_years : config 2024 ≠ config 2025 := by decide

/-- C6 amended: the configuration module is pure data up to the clock read
in the footer copyright: evaluation mutates nothing (it is modelled as a
pure function) and any two evaluations agree on every field once the
copyright string is blanked; in particular evaluations in the same calendar
year are equal. -/
theorem config_deterministic_modulo_year (y₁ y₂ : Nat) :
    configModuloCopyright (config y₁) = configModuloCopyright (config y₂) :=
  rfl

/-- Witness for C6 at the concrete years 2024 and 2025. -/
theorem config_deterministic_modulo_year_witness :
    configModuloCopyright (config 2024) =
      configModuloCopyright (config 2025) :=
  config_deterministic_modulo_year 2024 2025

/-- C7 counterexample: the Federated Learning intro document contains an
untagged code fence (its workflow diagram), so the claim that every fenced
code block carries a recognized language tag and no fence is untagged
fails. -/
theorem untagged_fence_in_fed_intro :
    fedLearningIntroDoc ∈ allDocs ∧
    "" ∈ fedLearningIntroDoc.fenceTags ∧
    ¬ (∀ d ∈ allDocs, ∀ t ∈ d.fenceTags, t ≠ "") := by decide

/-- C7 amended: every fenced code block of the repository's markdown
documents either is untagged (such fences occur, used for plain-text
diagrams) or carries one of the eleven language tags in `usedFenceTags`,
a set that contains all four additional languages loaded by the prism
configuration. -/
theorem fence_tags_classified :
    ("" ∈ fedLearningIntroDoc.fenceTags) ∧
    (∀ d ∈ allDocs, ∀ t ∈ d.fenceTags, t = "" ∨ t ∈ usedFenceTags) ∧
    (∀ l ∈ prismAdditionalLanguages, l ∈ usedFenceTags) := by decide

/-- C8: every markdown document of the repository that carries a
front-matter block carries exactly the block `sidebar_position: 1`, a
single configuration literal binding `sidebar_position` to a numeric
literal. -/
theorem front_matter_is_sidebar_position_only :
    ∀ d ∈ allDocs,
      d.frontMatter = none ∨
      d.frontMatter = some [("sidebar_position", 1)] := by decide

/-- Witness for C8 at the concrete GLIN Network intro document. -/
theorem front_matter_is_sidebar_position_only_witness :
    networkIntroDoc ∈ allDocs ∧
    (networkIntroDoc.frontMatter = none ∨
      networkIntroDoc.frontMatter = some [("sidebar_position", 1)]) :=
  ⟨by decide, front_matter_is_sidebar_position_only networkIntroDoc
    (by decide)⟩

/-- C9: the sidebar tree keeps its namespace invariant: every doc id of the
`sdkSidebar` starts with `sdk/`, every doc id of the `blockchainSidebar`
starts with `blockchain/`, and no doc id is listed twice across the two
sidebars. -/
theorem sidebar_namespace_invariant :
    (∀ id ∈ sdkSidebarDocIds, id.data.take 4 = "sdk/".data) ∧
    (∀ id ∈ blockchainSidebarDocIds, id.data.take 11 = "blockchain/".data) ∧
    sidebarDocIds.Nodup :=
  ⟨by decide, by decide, sidebarDocIds_nodup⟩

/-- C10: the classic preset's blog option is the source literal `false`, so
under the modelled preset behavior the generated site's routes are exactly
the docs routes, whatever doc ids the docs plugin serves and whatever
routes the blog plugin would otherwise contribute. -/
theorem blog_disabled_docs_routes_only (docIds blogRoutes : List String) :
    presetOptions.blog = false ∧
    siteRoutes docIds blogRoutes = docIds.map docRoute := by
  refine ⟨rfl, ?_⟩
  simp [siteRoutes, presetOptions]

/-- Witness for C10 at the concrete known doc ids and a hypothetical blog
route. -/
theorem blog_disabled_docs_routes_only_witness :
    presetOptions.blog = false ∧
    siteRoutes knownDocIds ["/blog"] = knownDocIds.map docRoute :=
  blog_disabled_docs_routes_only knownDocIds ["/blog"]

end GlinDocs
